import Mathlib

/-!
Verification of the Ozymandias document-ingestion scaffolds.

The Rust sources are shallowly embedded:
* `scaffolds/batch1/b/storage.rs` — `Storage` wraps a
  `HashMap<String, String>`; the hash map is modelled as a canonical
  association list in which `insert` removes any previous binding for the
  key before prepending the new one (hash-map keys are unique and an
  insert replaces the previous value).
* `scaffolds/batch1/a/storage.rs` — the `StorageError` enum (its sole
  declared variant is `Unknown`).
* `scaffolds/batch1/b/parser.rs` — `FileType`, `Parser`, `Parser::parse`.
* `src/commands/init.rs`, `src/cli/mod.rs` — the `init` subcommand.
* `scaffolds/batch2/b/ontology.rs`, `scaffolds/batch3/b/ml.rs` — only the
  type declarations exist in the repository (every method body is
  `unimplemented!()`); the missing bodies are modelled from the
  specification where a claim needs them, and each such definition is
  marked `Modelled from the spec:`.

Rust's `Result<T, E>` is embedded as `Except E T`, `Option<&T>` as
`Option T`.
-/

/-- Map update used to embed `HashMap::insert`: drop every existing
binding for `key` (hash-map keys are unique, so an insert replaces the
old value). -/
def mapErase (key : String) : List (String × String) → List (String × String)
  | [] => []
  | (k, v) :: rest =>
    if k = key then mapErase key rest else (k, v) :: mapErase key rest

/-- Map query used to embed `HashMap::get`: first binding for `key`, if
any. -/
def mapLookup (key : String) : List (String × String) → Option String
  | [] => none
  | (k, v) :: rest => if k = key then some v else mapLookup key rest

/-- `Storage` from `scaffolds/batch1/b/storage.rs`: an in-memory
`HashMap<String, String>` plus the path the (unimplemented) persistence
methods would use. -/
structure Storage where
  data : List (String × String)
  storage_path : String
deriving DecidableEq

/-- `Storage::new` — empty map, remembered path. -/
def Storage.new (storage_path : String) : Storage :=
  { data := [], storage_path := storage_path }

/-- `Storage::insert` — `self.data.insert(key.to_string(), value.to_string())`. -/
def Storage.insert (s : Storage) (key value : String) : Storage :=
  { s with data := (key, value) :: mapErase key s.data }

/-- `Storage::get` — `self.data.get(key)`, `Option<&String>`. -/
def Storage.get (s : Storage) (key : String) : Option String :=
  mapLookup key s.data

/-- Apply a sequence of `Storage::insert` calls, first element first. -/
def Storage.insertAll (s : Storage) : List (String × String) → Storage
  | [] => s
  | (k, v) :: rest => (s.insert k v).insertAll rest

/-- `StorageError` from `scaffolds/batch1/a/storage.rs`: the enum declares
exactly one variant, `Unknown`; there is no `NotFound` variant. -/
inductive StorageError where
  | Unknown
deriving DecidableEq

-- Helper lemmas about the map model.

theorem mapLookup_mapErase_ne {k key : String} (h : key ≠ k)
    (d : List (String × String)) :
    mapLookup key (mapErase k d) = mapLookup key d := by
  induction d with
  | nil => rfl
  | cons p rest ih =>
    obtain ⟨k', v⟩ := p
    by_cases hk : k' = k
    · simp only [mapErase, if_pos hk, ih, mapLookup]
      rw [if_neg (fun hkey => h (hkey.symm.trans hk))]
    · simp only [mapErase, if_neg hk, mapLookup, ih]

theorem mapErase_mapErase (k : String) (d : List (String × String)) :
    mapErase k (mapErase k d) = mapErase k d := by
  induction d with
  | nil => rfl
  | cons p rest ih =>
    obtain ⟨k', v⟩ := p
    by_cases hk : k' = k
    · simp only [mapErase, if_pos hk, ih]
    · simp only [mapErase, if_neg hk, ih]

theorem Storage.get_insert_self (s : Storage) (k v : String) :
    (s.insert k v).get k = some v := by
  simp [Storage.insert, Storage.get, mapLookup]

theorem Storage.get_insert_ne (s : Storage) {k k' : String} (v : String)
    (h : k ≠ k') : (s.insert k v).get k' = s.get k' := by
  simp only [Storage.insert, Storage.get, mapLookup, if_neg h]
  exact mapLookup_mapErase_ne (fun hk => h hk.symm) s.data

theorem Storage.get_insertAll_of_notMem (s : Storage)
    (ops : List (String × String)) (k : String)
    (hops : ∀ p ∈ ops, p.1 ≠ k) (hs : s.get k = none) :
    (s.insertAll ops).get k = none := by
  induction ops generalizing s with
  | nil => exact hs
  | cons p rest ih =>
    obtain ⟨k', v⟩ := p
    have hk' : k' ≠ k := hops (k', v) (List.mem_cons_self _ _)
    refine ih _ (fun q hq => hops q (List.mem_cons_of_mem _ hq)) ?_
    rw [Storage.get_insert_ne s v hk']
    exact hs

/-- C1: Storage round-trip — for every store state `s`, key `k` and value
`v`, `Storage::insert(k, v)` followed by `Storage::get(k)` yields exactly
`v` (wrapped in `Some`, `get`'s return type being `Option<&String>`). -/
theorem storage_insert_get_roundtrip (s : Storage) (k v : String) :
    (s.insert k v).get k = some v :=
  Storage.get_insert_self s k v

/-- C2 counterexample: on a freshly created store, `Storage::get` of an
absent key returns `None`, not a `StorageError::NotFound` value — `get`
returns `Option<&String>`, so no `StorageError` of any kind can be
produced (and the `StorageError` enum declares only `Unknown`). -/
theorem get_absent_returns_none_not_error :
    (Storage.new "store.db").get "missing" = none := by
  rfl

/-- C2 (amended): retrieving an absent key yields no value — for every
storage path and every sequence of inserts none of which targets key `k`,
`Storage::get(k)` returns `None`; absence is signalled through `Option`,
not through any `StorageError`. -/
theorem get_absent_none_after_foreign_inserts (path : String)
    (ops : List (String × String)) (k : String)
    (hops : ∀ p ∈ ops, p.1 ≠ k) :
    ((Storage.new path).insertAll ops).get k = none :=
  Storage.get_insertAll_of_notMem _ ops k hops rfl

/-- C2 witness: the amended theorem applied at a concrete trace. -/
theorem get_absent_none_after_foreign_inserts_witness :
    (∀ p ∈ [("a", "1"), ("c", "2")], p.1 ≠ "b") ∧
      ((Storage.new "db").insertAll [("a", "1"), ("c", "2")]).get "b" = none :=
  ⟨by decide, get_absent_none_after_foreign_inserts "db" _ "b" (by decide)⟩

/-- C7: `Storage::insert` overwrites — inserting `v₁` then `v₂` under the
same key leaves a store whose `get` yields `v₂`; and inserting the same
pair twice produces a state equal to inserting it once. -/
theorem insert_overwrites_and_idempotent :
    (∀ (s : Storage) (k v₁ v₂ : String),
        ((s.insert k v₁).insert k v₂).get k = some v₂) ∧
      (∀ (s : Storage) (k v : String),
        (s.insert k v).insert k v = s.insert k v) := by
  constructor
  · intro s k v₁ v₂
    exact Storage.get_insert_self _ k v₂
  · intro s k v
    simp [Storage.insert, mapErase, mapErase_mapErase]

/-- C10: frame property of `Storage::insert` — an insert under key `k`
leaves `Storage::get` at any other key `k'` unchanged. -/
theorem insert_frame_other_keys (s : Storage) (k k' v : String)
    (h : k ≠ k') : (s.insert k v).get k' = s.get k' :=
  Storage.get_insert_ne s v h

/-- C10 witness: the frame theorem applied at a concrete store and keys. -/
theorem insert_frame_other_keys_witness :
    ("a" : String) ≠ "b" ∧
      (((Storage.new "db").insert "b" "old").insert "a" "x").get "b" =
        ((Storage.new "db").insert "b" "old").get "b" :=
  ⟨by decide, insert_frame_other_keys _ "a" "b" "x" (by decide)⟩

-- Parser embedding, from `scaffolds/batch1/b/parser.rs`.

/-- `FileType` from `scaffolds/batch1/b/parser.rs`. -/
inductive FileType where
  | Markdown
  | Text
  | Pdf
deriving DecidableEq

/-- `std::io::Error`, kept opaque: the embedding only needs it as the
error type of `Result<String, Error>`. -/
inductive IoError where
  | mk (msg : String)
deriving DecidableEq

/-- `Parser` from `scaffolds/batch1/b/parser.rs`: a file path and a
declared file type. -/
structure Parser where
  file_path : String
  file_type : FileType
deriving DecidableEq

/-- `Parser::new`. -/
def Parser.new (file_path : String) (file_type : FileType) : Parser :=
  { file_path := file_path, file_type := file_type }

/-- `Parser::parse` — matches on the file type and returns
`Ok("".to_string())` in every arm (the parsing logic is a TO-DO in the
source). It never opens or reads the file. -/
def Parser.parse (p : Parser) : Except IoError String :=
  match p.file_type with
  | FileType.Markdown => Except.ok ""
  | FileType.Text => Except.ok ""
  | FileType.Pdf => Except.ok ""

/-- C3: evaluation of `Parser::parse` at the failing input — a `Text`
parser over an empty payload succeeds with `Ok("")` instead of failing
with a `ParseError::Empty`-style error, contradicting the declared error
contract (the implemented error type, `std::io::Error`, is never
returned, and `ParseError` in `scaffolds/batch1/a/parser.rs` declares
only `Unknown`). -/
theorem parse_ok_empty_on_empty_payload :
    (Parser.new "empty.txt" FileType.Text).parse = Except.ok "" := by
  rfl

/-- C4: parsing is deterministic — two `Parser` values with the same file
path (the input bytes' source) and the same declared file type produce
structurally equal parse results. -/
theorem parse_deterministic (p q : Parser)
    (hpath : p.file_path = q.file_path)
    (htype : p.file_type = q.file_type) :
    p.parse = q.parse := by
  cases p
  cases q
  cases hpath
  cases htype
  rfl

/-- C4 witness: determinism applied to two concrete parsers. -/
theorem parse_deterministic_witness :
    (Parser.new "doc.md" FileType.Markdown).file_path =
        (Parser.new "doc.md" FileType.Markdown).file_path ∧
      (Parser.new "doc.md" FileType.Markdown).file_type =
        (Parser.new "doc.md" FileType.Markdown).file_type ∧
      (Parser.new "doc.md" FileType.Markdown).parse =
        (Parser.new "doc.md" FileType.Markdown).parse :=
  ⟨rfl, rfl, parse_deterministic _ _ rfl rfl⟩

/-- C9: the implemented `Parser::parse` is the constant success — for
every file path and every declared file type it returns `Ok("")`; it
never returns an error and never depends on the file's contents. -/
theorem parse_always_ok_empty_string (path : String) (ft : FileType) :
    (Parser.new path ft).parse = Except.ok "" := by
  cases ft <;> rfl

-- CLI embedding, from `src/cli/mod.rs` and `src/commands/init.rs`.

/-- `anyhow::Error`, kept opaque: the embedding only needs it as the
error type of `Result<()>`. -/
inductive CliError where
  | mk (msg : String)
deriving DecidableEq

/-- `InitCommand::execute` — prints `"Hello World"` to stdout and returns
`Ok(())`; modelled as the pair (stdout lines, result). The `info!` calls
go to the tracing subscriber, not stdout, and are not modelled. -/
def InitCommand.execute : List String × Except CliError Unit :=
  (["Hello World"], Except.ok ())

/-- `Commands` from `src/cli/mod.rs`: the CLI's subcommands. -/
inductive Commands where
  | Init
deriving DecidableEq

/-- `Commands::execute` — dispatches `Init` to `InitCommand::execute`. -/
def Commands.execute : Commands → List String × Except CliError Unit
  | Commands.Init => InitCommand.execute

/-- Process exit code derived from `main`'s `Result` (`anyhow` maps `Ok`
to exit code 0 and `Err` to a non-zero code). -/
def processExitCode (r : Except CliError Unit) : Nat :=
  match r with
  | Except.ok _ => 0
  | Except.error _ => 1

/-- C8: executing the `init` subcommand prints `"Hello World"`, returns
`Ok(())`, and the resulting process exit code is 0. -/
theorem init_prints_hello_world_exit_zero :
    Commands.execute Commands.Init = (["Hello World"], Except.ok ()) ∧
      processExitCode (Commands.execute Commands.Init).2 = 0 :=
  ⟨rfl, rfl⟩

-- Ontology embedding. `scaffolds/batch2/b/ontology.rs` declares the
-- types below; the method bodies are `unimplemented!()` in the source,
-- so the classification logic is modelled from the specification.

/-- `TransformedData` (spec §3): normalized form of one parsed document,
carrying its `document_id` and its normalized textual content. -/
structure TransformedData where
  document_id : String
  content : String
deriving DecidableEq

/-- `ClassifiedData` from `scaffolds/batch2/b/ontology.rs`: a category
label, paired with the classified document's id (spec §3). -/
structure ClassifiedData where
  document_id : String
  category : String
deriving DecidableEq

/-- `OntologyError` (spec §7): `OntologyError{NoMatch, Inconsistent}`.
The enum in `scaffolds/batch2/b/ontology.rs` is itself a placeholder
(sole variant `Unknown`, "Add error variants as needed"); the spec's
closed taxonomy is used. -/
inductive OntologyError where
  | NoMatch
  | Inconsistent
deriving DecidableEq

/-- `TaxonomyOntology` from `scaffolds/batch2/b/ontology.rs`, given the
configured taxonomy the spec requires: an ordered list of
(category, keyword) rules, order being the deterministic priority used
for tie-breaking (spec §4.4). -/
structure TaxonomyOntology where
  taxonomy : List (String × String)
deriving DecidableEq

/-- Modelled from the spec: `TaxonomyOntology::classify` is
`unimplemented!()` in `scaffolds/batch2/b/ontology.rs`. Per spec §4.4 it
assigns exactly one primary category — here the first taxonomy entry (in
priority order) whose keyword occurs among the content's
whitespace-separated words — and fails with `OntologyError::NoMatch`
when no category applies. -/
def TaxonomyOntology.classify (o : TaxonomyOntology)
    (input : TransformedData) : Except OntologyError ClassifiedData :=
  match o.taxonomy.find?
      (fun c => (input.content.splitOn " ").contains c.2) with
  | some c => Except.ok { document_id := input.document_id, category := c.1 }
  | none => Except.error OntologyError.NoMatch

/-- C5: `classify` either succeeds with a category drawn from the
configured taxonomy or fails with `OntologyError::NoMatch`; it never
succeeds with a category absent from the taxonomy. -/
theorem classify_category_in_taxonomy_or_nomatch (o : TaxonomyOntology)
    (input : TransformedData) :
    (∃ cd, o.classify input = Except.ok cd ∧
        cd.category ∈ o.taxonomy.map Prod.fst) ∨
      o.classify input = Except.error OntologyError.NoMatch := by
  unfold TaxonomyOntology.classify
  cases hfind : o.taxonomy.find?
      (fun c => (input.content.splitOn " ").contains c.2) with
  | none =>
    right
    rfl
  | some c =>
    left
    refine ⟨{ document_id := input.document_id, category := c.1 }, rfl, ?_⟩
    exact List.mem_map_of_mem Prod.fst (List.mem_of_find?_eq_some hfind)

-- Predictor embedding. `scaffolds/batch3/b/ml.rs` declares the types
-- below; `train` and `predict` are `unimplemented!()` in the source, so
-- their bodies are modelled from the specification (§4.5). The
-- confidence score (a float in the spec) is modelled as a rational.

/-- `MLError` (spec §7): `MLError{NotTrained, EmptyCorpus}`. The enum in
`scaffolds/batch3/b/ml.rs` is itself a placeholder (sole variant
`Unknown`); the spec's closed taxonomy is used. -/
inductive MLError where
  | NotTrained
  | EmptyCorpus
deriving DecidableEq

/-- `PredictedData` from `scaffolds/batch3/b/ml.rs` plus the spec's §3
fields: an opaque prediction payload and a confidence score. -/
structure PredictedData where
  document_id : String
  prediction : String
  confidence : ℚ
deriving DecidableEq

/-- `NeuralNetwork` from `scaffolds/batch3/b/ml.rs`, given the internal
model state the spec requires (§4.5): `none` before any successful
training, otherwise the training corpus of the last successful `train`
(full-replacement policy). -/
structure NeuralNetwork where
  model : Option (List TransformedData)
deriving DecidableEq

/-- A fresh, untrained predictor. -/
def NeuralNetwork.new : NeuralNetwork :=
  { model := none }

/-- Modelled from the spec: `NeuralNetwork::train` is `unimplemented!()`
in `scaffolds/batch3/b/ml.rs`. Per spec §4.5, training on an empty
corpus fails with `MLError::EmptyCorpus`; otherwise the model is fully
replaced by the new corpus. -/
def NeuralNetwork.train (_nn : NeuralNetwork)
    (data : List TransformedData) : Except MLError NeuralNetwork :=
  if data.isEmpty then Except.error MLError.EmptyCorpus
  else Except.ok { model := some data }

/-- Modelled from the spec: `NeuralNetwork::predict` is
`unimplemented!()` in `scaffolds/batch3/b/ml.rs`. Per spec §4.5, predict
fails with `MLError::NotTrained` before a successful `train`; otherwise
it predicts from the trained corpus — here a nearest-content match whose
confidence is the fraction of corpus documents sharing the input's
content. -/
def NeuralNetwork.predict (nn : NeuralNetwork)
    (input : TransformedData) : Except MLError PredictedData :=
  match nn.model with
  | none => Except.error MLError.NotTrained
  | some corpus =>
    Except.ok
      { document_id := input.document_id,
        prediction := "nearest-content match",
        confidence :=
          ((corpus.filter (fun d => d.content == input.content)).length : ℚ) /
            (corpus.length : ℚ) }

/-- C6: a fresh predictor (no successful `train` yet) fails with
`MLError::NotTrained` on `predict`; and after a successful `train` on a
non-empty corpus, `predict` succeeds with a confidence in `[0, 1]`. -/
theorem predict_notrained_then_confidence_bounds :
    (∀ input : TransformedData,
        NeuralNetwork.new.predict input = Except.error MLError.NotTrained) ∧
      (∀ (nn nn' : NeuralNetwork) (corpus : List TransformedData)
          (input : TransformedData),
          corpus ≠ [] → nn.train corpus = Except.ok nn' →
          ∃ pd, nn'.predict input = Except.ok pd ∧
            0 ≤ pd.confidence ∧ pd.confidence ≤ 1) := by
  constructor
  · intro input
    rfl
  · intro nn nn' corpus input hne htrain
    cases corpus with
    | nil => exact absurd rfl hne
    | cons a rest =>
      simp only [NeuralNetwork.train, List.isEmpty_cons, if_false,
        Bool.false_eq_true, Except.ok.injEq] at htrain
      subst htrain
      refine ⟨_, rfl, ?_, ?_⟩
      · exact div_nonneg (Nat.cast_nonneg _) (Nat.cast_nonneg _)
      · refine div_le_one_of_le₀ ?_ (Nat.cast_nonneg _)
        exact_mod_cast List.length_filter_le _ _

/-- C6 witness: the theorem applied to a concrete one-document corpus. -/
theorem predict_notrained_then_confidence_bounds_witness :
    ([⟨"d1", "hello"⟩] : List TransformedData) ≠ [] ∧
      ∃ pd, ({ model := some [⟨"d1", "hello"⟩] } : NeuralNetwork).predict
          ⟨"d2", "hello"⟩ = Except.ok pd ∧
        0 ≤ pd.confidence ∧ pd.confidence ≤ 1 :=
  ⟨by decide,
    predict_notrained_then_confidence_bounds.2 NeuralNetwork.new
      { model := some [⟨"d1", "hello"⟩] } [⟨"d1", "hello"⟩] ⟨"d2", "hello"⟩
      (by decide) rfl⟩
